import Mathlib

/-!
# k8s-event-watcher: the event loops of `main.go` and `event_watcher.go`

A shallow embedding of the two programs of the repository.

* Instants (`time.Time`) are integers: nanoseconds since the Unix epoch. Only their order
  is used by the code (`Time.Before`) and one shift (`Time.Add`).
* The standard library and client-go are the boundary of the model. A call to `log.Println`,
  `log.Printf` or `fmt.Printf` is recorded as a value (`LogCall`) holding the format string and
  the operands, in call order. `Time.Format(time.RFC3339)` is a parameter `rfc3339` of the loop.
* The result channel of the watcher is the list of receives the loop performs: `some event`
  for a delivered event, `none` for a receive on the closed channel (`ok == false`). Each
  receive of `main.go` is paired with the value `time.Now()` returns in that iteration.
  The channel `main.go` reads is the one of a client-go retry watcher, which reconnects by
  itself and closes the channel only after sending a Status; `closesOnlyAfterStatus` states
  this discipline, and it is a hypothesis wherever a statement depends on it.
* `panic` ends the run; it is an explicit result, never a Lean exception.
-/

namespace K8sEventWatcher

/-! ## Data model -/

/-- Instant of a `time.Time`, in nanoseconds since the Unix epoch. -/
abbrev Time := Int

/-- Go `time.Duration`: a count of nanoseconds. -/
abbrev Duration := Int

/-- Go `time.Second`. -/
def Second : Duration := 1000000000

/-- Go `time.Minute`. -/
def Minute : Duration := 60 * Second

/-- Go `metav1.OwnerReference`. -/
structure metav1.OwnerReference where
  APIVersion : String
  Kind : String
  Name : String
  UID : String
  Controller : Option Bool
  BlockOwnerDeletion : Option Bool
  deriving DecidableEq, Repr

/-- Go `metav1.ObjectMeta`, the fields an Event object carries. -/
structure metav1.ObjectMeta where
  Name : String
  Namespace : String
  UID : String
  ResourceVersion : String
  CreationTimestamp : Time
  OwnerReferences : List metav1.OwnerReference
  deriving DecidableEq, Repr

/-- Go `corev1.ObjectReference`: the identity of the involved object. It has no field for
the owner references of the object it names. -/
structure corev1.ObjectReference where
  Kind : String
  Namespace : String
  Name : String
  UID : String
  APIVersion : String
  ResourceVersion : String
  FieldPath : String
  deriving DecidableEq, Repr

/-- Go `corev1.Event`, the fields read by the two programs plus its object metadata. The Go
field `Type` is written `Type_`. -/
structure corev1.Event where
  ObjectMeta : metav1.ObjectMeta
  InvolvedObject : corev1.ObjectReference
  Reason : String
  Message : String
  FirstTimestamp : Time
  LastTimestamp : Time
  Count : Int
  Type_ : String
  deriving DecidableEq, Repr

/-- Go `runtime.Object` as the loops see it: either a `*corev1.Event`, or a value of any other
dynamic type, kept by the name `%T` prints for it (`*v1.Status`, `<nil>`, ...). -/
inductive runtime.Object where
  | event (item : corev1.Event)
  | other (dynType : String)
  deriving DecidableEq, Repr

/-- Go `watch.EventType`, a string type. -/
abbrev apiWatch.EventType := String

/-- Go `watch.Added`. -/
def apiWatch.Added : apiWatch.EventType := "ADDED"

/-- Go `watch.Modified`. -/
def apiWatch.Modified : apiWatch.EventType := "MODIFIED"

/-- Go `watch.Deleted`. -/
def apiWatch.Deleted : apiWatch.EventType := "DELETED"

/-- Go `watch.Bookmark`. -/
def apiWatch.Bookmark : apiWatch.EventType := "BOOKMARK"

/-- Go `watch.Error`. -/
def apiWatch.Error : apiWatch.EventType := "ERROR"

/-- Go `watch.Event`: what the result channel delivers. The Go field `Type` is written
`Type_`. -/
structure apiWatch.Event where
  Type_ : apiWatch.EventType
  Object : runtime.Object
  deriving DecidableEq, Repr

/-- Go `metav1.ListOptions`. -/
structure metav1.ListOptions where
  LabelSelector : String := ""
  FieldSelector : String := ""
  Watch : Bool := false
  AllowWatchBookmarks : Bool := false
  ResourceVersion : String := ""
  ResourceVersionMatch : String := ""
  TimeoutSeconds : Option Int := none
  Limit : Int := 0
  Continue : String := ""
  deriving DecidableEq, Repr

/-- The struct `PodEvent` of `main.go` (lines 41-52) and of `event_watcher.go` (lines 51-62).
The field `OwnerReferences` is commented out in both. -/
structure PodEvent where
  UID : String
  PodName : String
  PodNamespace : String
  EventType : String
  Reason : String
  Message : String
  Count : Int
  FirstTimestamp : Time
  LastTimestamp : Time
  deriving DecidableEq, Repr

/-- An operand of a formatting call. -/
inductive Arg where
  | str (s : String)
  | int (n : Int)
  | podEvent (e : PodEvent)
  deriving DecidableEq, Repr

/-- One call that writes output: `log.Println(args...)`, or `log.Printf(format, args...)` /
`fmt.Printf(format, args...)`. -/
inductive LogCall where
  | Println (args : List Arg)
  | Printf (format : String) (args : List Arg)
  deriving DecidableEq, Repr

/-- The value handed to `panic`. -/
inductive PanicValue where
  /-- An error built by `fmt.Errorf`, with its rendered message. -/
  | error (msg : String)
  /-- The runtime error of a failed single-value type assertion `x.(*v1.Event)`, with the
  dynamic type found. -/
  | typeAssertion (dynType : String)
  deriving DecidableEq, Repr

/-- How a run of a loop stands after the receives it was given. -/
inductive Exit where
  /-- Still in the loop, blocked on the next receive. -/
  | running
  /-- The function `main` returned. -/
  | returned
  /-- The process was aborted by `panic`. -/
  | panicked (v : PanicValue)
  deriving DecidableEq, Repr

/-- Output written so far and the state of the process. -/
structure Run where
  logs : List LogCall
  exit : Exit
  deriving DecidableEq, Repr

/-! ## `main.go` -/

/-- The struct `eventWatcher` of `main.go` (lines 19-23); the client set is the cluster
connection and carries no data of the model. The Go field `namespace` is written
`namespace_`. -/
structure eventWatcher where
  timeoutSecs : Int
  namespace_ : String
  deriving DecidableEq, Repr

/-- The package variable `timeout` of `main.go` (line 57). -/
def timeout : Int := 60

/-- The function `newWatcher` of `main.go` (lines 26-29): the watcher and the line it logs. -/
def newWatcher (timeout : Int) (namespace_ : String) : eventWatcher × List LogCall :=
  (⟨timeout, namespace_⟩, [.Println [.str "eventWatcher Initialised"]])

/-- A subscription request sent to the cluster API: `Events(namespace).Watch(ctx, opts)`. -/
structure WatchRequest where
  namespace_ : String
  opts : metav1.ListOptions
  deriving DecidableEq, Repr

/-- The method `eventWatcher.Watch` of `main.go` (lines 32-35): the request it issues and the
line it logs. The argument `options` is not used by the body. -/
def eventWatcher.Watch (w : eventWatcher) (_options : metav1.ListOptions) :
    WatchRequest × List LogCall :=
  (⟨w.namespace_, { TimeoutSeconds := some w.timeoutSecs }⟩,
   [.Println [.str "New Watcher Deployed"]])

/-- The case of the `switch item.Reason` statement that is selected. -/
inductive ReasonCase where
  | Failed
  | BackOff
  | NetworkNotReady
  | FailedCreatePodSandBox
  | default
  deriving DecidableEq, Repr

/-- Case selection of the `switch item.Reason` of `main.go` (lines 143-174), cases tried in
source order. -/
def mainSwitch (reason : String) : ReasonCase :=
  if reason = "Failed" then .Failed
  else if reason = "BackOff" then .BackOff
  else if reason = "NetworkNotReady" then .NetworkNotReady
  else if reason = "FailedCreatePodSandBox" then .FailedCreatePodSandBox
  else .default

/-- Result of one iteration of the loop of `main.go`. -/
inductive Outcome where
  /-- The iteration called `panic` (lines 99, 105). -/
  | panic (v : PanicValue)
  /-- The iteration ended at `continue` (line 137), with the calls it logged. -/
  | skipped (logs : List LogCall)
  /-- The iteration ran to `time.Sleep(5 * time.Second)` (line 182), with the calls it logged. -/
  | handled (logs : List LogCall)
  deriving DecidableEq, Repr

/-- The `PodEvent` both programs build from an Event (main.go lines 109-120,
event_watcher.go lines 69-80). -/
def mkPodEvent (item : corev1.Event) : PodEvent :=
  { UID := item.InvolvedObject.UID
    PodName := item.InvolvedObject.Name
    PodNamespace := item.InvolvedObject.Namespace
    Reason := item.Reason
    EventType := item.Type_
    Message := item.Message
    Count := item.Count
    FirstTimestamp := item.FirstTimestamp
    LastTimestamp := item.LastTimestamp }

/-- The summary string `msg` of `main.go` (lines 125-132):
`fmt.Sprintf("%s: %s %s/%s %s", type, reason, namespace, name, creation time)`. -/
def mkMsg (rfc3339 : Time → String) (e : PodEvent) (creationTime : Time) : String :=
  e.EventType ++ ": " ++ e.Reason ++ " " ++ e.PodNamespace ++ "/" ++ e.PodName ++ " "
    ++ rfc3339 creationTime

/-- One iteration of the `for` loop of `main.go` (lines 95-183). `recv` is the receive from
`rw.ResultChan()`, `now` the value of `time.Now()`, `dryRunMode` the flag variable. -/
def mainLoopBody (rfc3339 : Time → String) (dryRunMode : Bool) (now : Time)
    (recv : Option apiWatch.Event) : Outcome :=
  match recv with
  | none => .panic (.error "closed channel")
  | some event =>
    match event.Object with
    | .other dynType => .panic (.error ("invalid type \x27" ++ dynType ++ "\x27"))
    | .event item =>
      let e := mkPodEvent item
      let creationTime := item.ObjectMeta.CreationTimestamp
      let msg := mkMsg rfc3339 e creationTime
      let fiveMinsAgo := now + (-5 * Minute)
      if event.Type_ = apiWatch.Added ∧ creationTime < fiveMinsAgo then
        .skipped [.Println [.str "skipping old event", .str msg]]
      else if e.EventType ≠ "Normal" then
        match mainSwitch item.Reason with
        | .Failed => .handled [.Printf "%s\n%+v" [.str msg, .podEvent e]]
        | .BackOff => .handled [.Printf "%s\n%+v" [.str msg, .podEvent e]]
        | .NetworkNotReady => .handled [.Printf "%s\n%+v" [.str msg, .podEvent e]]
        | .FailedCreatePodSandBox =>
          .handled [.Printf "%s\n%+v" [.str msg, .podEvent e],
            if !dryRunMode then
              .Printf "Would have deleted pod %s/%s" [.str e.PodNamespace, .str e.PodName]
            else
              .Printf "[DRY-RUN]: Would have deleted pod %s/%s"
                [.str e.PodNamespace, .str e.PodName]]
        | .default => .handled [.Printf "%s\n%+v" [.str msg, .podEvent e]]
      else
        .handled [.Println [.str msg]]

/-- The `for` loop of `main.go` (lines 95-183) over the receives it performs; the line logged
before the loop is entered (line 94) is not part of it. A panic ends the run; when the
receives given are used up the loop is blocked on the channel. -/
def mainLoop (rfc3339 : Time → String) (dryRunMode : Bool) :
    List (Time × Option apiWatch.Event) → Run
  | [] => ⟨[], .running⟩
  | (now, recv) :: rest =>
    match mainLoopBody rfc3339 dryRunMode now recv with
    | .panic v => ⟨[], .panicked v⟩
    | .skipped logs =>
      let r := mainLoop rfc3339 dryRunMode rest
      ⟨logs ++ r.logs, r.exit⟩
    | .handled logs =>
      let r := mainLoop rfc3339 dryRunMode rest
      ⟨logs ++ r.logs, r.exit⟩

/-- The receives of a run in which every payload is a `*corev1.Event`: one triple
(value of `time.Now()`, watch kind, Event) for each iteration. -/
def delivered (xs : List (Time × apiWatch.EventType × corev1.Event)) :
    List (Time × Option apiWatch.Event) :=
  xs.map fun x => (x.1, some ⟨x.2.1, .event x.2.2⟩)

/-! ## `event_watcher.go` -/

/-- The case of the `switch item.Reason` statement of `event_watcher.go` that is selected. The
label `"NetworkNotReady"` is commented out there (line 94). -/
inductive WatcherCase where
  | Failed
  | BackOff
  | FailedCreatePodSandBox
  | default
  deriving DecidableEq, Repr

/-- Case selection of the `switch item.Reason` of `event_watcher.go` (lines 84-110). -/
def watcherSwitch (reason : String) : WatcherCase :=
  if reason = "Failed" then .Failed
  else if reason = "BackOff" then .BackOff
  else if reason = "FailedCreatePodSandBox" then .FailedCreatePodSandBox
  else .default

/-- Go `int` arithmetic on a 64-bit platform: the result wrapped into the signed range. -/
def wrapInt64 (n : Int) : Int := (n + 2 ^ 63) % 2 ^ 64 - 2 ^ 63

/-- One iteration of the `range` loop of `event_watcher.go` (lines 65-111) on a delivered
event: the new value of `counter` and the calls to `fmt.Printf`, or the panic of the type
assertion of line 67. -/
def watcherLoopBody (counter : Int) (event : apiWatch.Event) :
    Except PanicValue (Int × List LogCall) :=
  match event.Object with
  | .other dynType => .error (.typeAssertion dynType)
  | .event item =>
    let e := mkPodEvent item
    match watcherSwitch item.Reason with
    | .Failed => .ok (counter, [.Printf "\nFailed PodEvent:\n%+v\n" [.podEvent e]])
    | .BackOff => .ok (counter, [.Printf "\nBackOff PodEvent:\n%+v\n" [.podEvent e]])
    | .FailedCreatePodSandBox =>
      let counter := wrapInt64 (counter + 1)
      .ok (counter,
        [.Printf "\n%dFailedCreatePodSnadbox PodEvent:\n%+v\n" [.int counter, .podEvent e]])
    | .default =>
      .ok (counter,
        [.Printf "\nDO NOT KNOW (%s) PodEvent:\n%+v\n" [.str item.Reason, .podEvent e]])

/-- The `range` loop of `event_watcher.go` over the receives it performs, started with the
given value of `counter` (0 in the program). A receive on the closed channel ends the loop
and `main` returns. -/
def watcherLoop : Int → List (Option apiWatch.Event) → Run
  | _, [] => ⟨[], .running⟩
  | _, none :: _ => ⟨[], .returned⟩
  | counter, some event :: rest =>
    match watcherLoopBody counter event with
    | .error v => ⟨[], .panicked v⟩
    | .ok (counter, logs) =>
      let r := watcherLoop counter rest
      ⟨logs ++ r.logs, r.exit⟩

/-- The receives of a run of `event_watcher.go` in which every payload is a `*corev1.Event`:
one pair (watch kind, Event) for each iteration. -/
def watcherDelivered (xs : List (apiWatch.EventType × corev1.Event)) :
    List (Option apiWatch.Event) :=
  xs.map fun x => some ⟨x.1, .event x.2⟩

/-! ## Observations used by the statements -/

/-- Channel discipline of the retry watcher whose result channel `main.go` reads (client-go,
outside the repository). Stream closure, disconnect and timeout of the underlying watch are
handled inside the retry watcher and never close the result channel; it is closed only after
the retry watcher has sent an Error event whose object is a `*v1.Status`, not an Event, or
after `Stop`, which `main.go` never calls. So in the receives of a run the closure is never
met before a payload that is not an Event. -/
def closesOnlyAfterStatus : List (Time × Option apiWatch.Event) → Bool
  | [] => true
  | (_, none) :: _ => false
  | (_, some ⟨_, .other _⟩) :: _ => true
  | (_, some ⟨_, .event _⟩) :: rest => closesOnlyAfterStatus rest

/-- The calls an iteration logged; a panicking iteration logged none. -/
def Outcome.logs : Outcome → List LogCall
  | .panic _ => []
  | .skipped logs => logs
  | .handled logs => logs

/-- The call is one of the two lines of `main.go` (lines 161, 163) that announce the deletion
of a pod: the remediation decision. -/
def isDeleteDecision : LogCall → Bool
  | .Printf format _ =>
    format = "Would have deleted pod %s/%s" || format = "[DRY-RUN]: Would have deleted pod %s/%s"
  | .Println _ => false

/-- The call is a deletion line naming the pod `ns/name`. -/
def isDeleteDecisionFor (ns name : String) : LogCall → Bool
  | .Printf format args =>
    (format = "Would have deleted pod %s/%s" ||
      format = "[DRY-RUN]: Would have deleted pod %s/%s") && args = [.str ns, .str name]
  | .Println _ => false

/-- The call `log.Printf("%s\n%+v", msg, e)` of an iteration on a given Event. -/
def detailLine (rfc3339 : Time → String) (item : corev1.Event) : LogCall :=
  .Printf "%s\n%+v"
    [.str (mkMsg rfc3339 (mkPodEvent item) item.ObjectMeta.CreationTimestamp),
     .podEvent (mkPodEvent item)]

/-- The deletion line of an iteration on a given Event, for a value of the dry-run flag. -/
def deleteLine (dryRunMode : Bool) (item : corev1.Event) : LogCall :=
  if dryRunMode then
    .Printf "[DRY-RUN]: Would have deleted pod %s/%s"
      [.str item.InvolvedObject.Namespace, .str item.InvolvedObject.Name]
  else
    .Printf "Would have deleted pod %s/%s"
      [.str item.InvolvedObject.Namespace, .str item.InvolvedObject.Name]

/-- The iteration took the remediation decision. -/
def Outcome.emitsDelete (o : Outcome) : Bool := o.logs.any isDeleteDecision

/-- The condition of line 135 in the words of the specification: the watch kind is Added and
the creation timestamp is strictly earlier than now minus five minutes. -/
def staleAdded (now : Time) (kind : apiWatch.EventType) (item : corev1.Event) : Prop :=
  kind = apiWatch.Added ∧ item.ObjectMeta.CreationTimestamp < now - 5 * Minute

instance (now : Time) (kind : apiWatch.EventType) (item : corev1.Event) :
    Decidable (staleAdded now kind item) := by
  unfold staleAdded; infer_instance

/-- The event qualifies for the remediation decision: not stale-Added, event type other than
`"Normal"`, reason exactly `"FailedCreatePodSandBox"`. -/
def qualifies (now : Time) (kind : apiWatch.EventType) (item : corev1.Event) : Prop :=
  ¬ staleAdded now kind item ∧ item.Type_ ≠ "Normal" ∧ item.Reason = "FailedCreatePodSandBox"

instance (now : Time) (kind : apiWatch.EventType) (item : corev1.Event) :
    Decidable (qualifies now kind item) := by
  unfold qualifies; infer_instance

/-- The event with the owner references of its metadata replaced. -/
def withOwnerReferences (item : corev1.Event) (refs : List metav1.OwnerReference) :
    corev1.Event :=
  { item with ObjectMeta := { item.ObjectMeta with OwnerReferences := refs } }

/-- The dry-run form of a logged call: the deletion line gets the tag `[DRY-RUN]: ` in front
of its format, every other call is unchanged. -/
def tagDryRun : LogCall → LogCall
  | .Printf format args =>
    if format = "Would have deleted pod %s/%s" then .Printf ("[DRY-RUN]: " ++ format) args
    else .Printf format args
  | .Println args => .Println args

/-- The categories of the specification (section 3, NormalizedEvent). -/
inductive Category where
  | Transient
  | Flapping
  | TerminalFailure
  | Informational
  | Unknown
  deriving DecidableEq, Repr

/-- The lookup table of the specification (section 4.2, step 3), in its words:
`Failed→TerminalFailure`, `BackOff→Flapping`, `FailedCreatePodSandBox→TerminalFailure`,
`NetworkNotReady→Transient`, anything unmapped →`Unknown`. -/
def specCategory (reason : String) : Category :=
  if reason = "Failed" then .TerminalFailure
  else if reason = "BackOff" then .Flapping
  else if reason = "FailedCreatePodSandBox" then .TerminalFailure
  else if reason = "NetworkNotReady" then .Transient
  else .Unknown

/-- The category the specification gives to each case of the switch of `main.go`: the case
of a listed reason carries the category of that reason, the default case is `Unknown`. -/
def ReasonCase.category : ReasonCase → Category
  | .Failed => .TerminalFailure
  | .BackOff => .Flapping
  | .NetworkNotReady => .Transient
  | .FailedCreatePodSandBox => .TerminalFailure
  | .default => .Unknown

/-- The category the specification gives to each case of the switch of `event_watcher.go`. -/
def WatcherCase.category : WatcherCase → Category
  | .Failed => .TerminalFailure
  | .BackOff => .Flapping
  | .FailedCreatePodSandBox => .TerminalFailure
  | .default => .Unknown

/-! ## Concrete inputs -/

/-- A formatter standing for `Time.Format(time.RFC3339)` in evaluated examples. Its value is
the RFC 3339 form of instant 0 in UTC, the creation time of every example event. -/
def epochUTC (_ : Time) : String := "1970-01-01T00:00:00Z"

/-- A Warning event with reason `FailedCreatePodSandBox` about pod `default/pod-a`, created at
instant 0, carrying no owner references. -/
def sandboxFailure : corev1.Event :=
  { ObjectMeta :=
      { Name := "pod-a.17a1", Namespace := "default", UID := "e-1", ResourceVersion := "7",
        CreationTimestamp := 0, OwnerReferences := [] }
    InvolvedObject :=
      { Kind := "Pod", Namespace := "default", Name := "pod-a", UID := "p-1", APIVersion := "v1",
        ResourceVersion := "3", FieldPath := "" }
    Reason := "FailedCreatePodSandBox"
    Message := "Failed to create pod sandbox"
    FirstTimestamp := 0
    LastTimestamp := 0
    Count := 1
    Type_ := "Warning" }

/-- A Normal event with reason `Scheduled` about pod `default/pod-a`. -/
def scheduledNormal : corev1.Event :=
  { sandboxFailure with Reason := "Scheduled", Message := "assigned", Type_ := "Normal" }

/-- The receives of a run in which the retry watcher gives up: a Normal event, then the Error
event carrying the `*v1.Status` it sends before stopping, then its closed channel. -/
def retryWatcherGivesUp : List (Time × Option apiWatch.Event) :=
  [(0, some ⟨apiWatch.Modified, .event scheduledNormal⟩),
   (5 * Second, some ⟨apiWatch.Error, .other "*v1.Status"⟩),
   (5 * Second, none)]

/-! ## Lemmas on one iteration of `main.go` -/

theorem fiveMinsAgo_eq (now : Time) : now + (-5 * Minute) = now - 5 * Minute := by ring

theorem body_stale (rfc3339 : Time → String) (dry : Bool) (now : Time)
    (kind : apiWatch.EventType) (item : corev1.Event) (h : staleAdded now kind item) :
    mainLoopBody rfc3339 dry now (some ⟨kind, .event item⟩) =
      .skipped [.Println [.str "skipping old event",
        .str (mkMsg rfc3339 (mkPodEvent item) item.ObjectMeta.CreationTimestamp)]] := by
  unfold staleAdded at h
  simp only [mainLoopBody, fiveMinsAgo_eq]
  rw [if_pos h]

theorem body_normal (rfc3339 : Time → String) (dry : Bool) (now : Time)
    (kind : apiWatch.EventType) (item : corev1.Event) (h : ¬ staleAdded now kind item)
    (hn : item.Type_ = "Normal") :
    mainLoopBody rfc3339 dry now (some ⟨kind, .event item⟩) =
      .handled [.Println
        [.str (mkMsg rfc3339 (mkPodEvent item) item.ObjectMeta.CreationTimestamp)]] := by
  unfold staleAdded at h
  simp only [mainLoopBody, fiveMinsAgo_eq]
  rw [if_neg h]
  simp [mkPodEvent, hn]

theorem body_sandbox (rfc3339 : Time → String) (dry : Bool) (now : Time)
    (kind : apiWatch.EventType) (item : corev1.Event) (h : ¬ staleAdded now kind item)
    (hn : item.Type_ ≠ "Normal") (hr : item.Reason = "FailedCreatePodSandBox") :
    mainLoopBody rfc3339 dry now (some ⟨kind, .event item⟩) =
      .handled [detailLine rfc3339 item, deleteLine dry item] := by
  unfold staleAdded at h
  simp only [mainLoopBody, fiveMinsAgo_eq]
  rw [if_neg h]
  cases dry <;> simp [mkPodEvent, hn, hr, mainSwitch, detailLine, deleteLine]

theorem body_other_reason (rfc3339 : Time → String) (dry : Bool) (now : Time)
    (kind : apiWatch.EventType) (item : corev1.Event) (h : ¬ staleAdded now kind item)
    (hn : item.Type_ ≠ "Normal") (hr : item.Reason ≠ "FailedCreatePodSandBox") :
    mainLoopBody rfc3339 dry now (some ⟨kind, .event item⟩) =
      .handled [detailLine rfc3339 item] := by
  unfold staleAdded at h
  simp only [mainLoopBody, fiveMinsAgo_eq]
  rw [if_neg h]
  simp only [mkPodEvent, ne_eq, hn, not_false_eq_true, if_true, detailLine, mainSwitch]
  split_ifs <;> rfl

/-- The result of an iteration on a delivered Event, by the three tests of the body. -/
theorem body_event (rfc3339 : Time → String) (dry : Bool) (now : Time)
    (kind : apiWatch.EventType) (item : corev1.Event) :
    mainLoopBody rfc3339 dry now (some ⟨kind, .event item⟩) =
      if staleAdded now kind item then
        .skipped [.Println [.str "skipping old event",
          .str (mkMsg rfc3339 (mkPodEvent item) item.ObjectMeta.CreationTimestamp)]]
      else if item.Type_ = "Normal" then
        .handled [.Println
          [.str (mkMsg rfc3339 (mkPodEvent item) item.ObjectMeta.CreationTimestamp)]]
      else if item.Reason = "FailedCreatePodSandBox" then
        .handled [detailLine rfc3339 item, deleteLine dry item]
      else .handled [detailLine rfc3339 item] := by
  by_cases h : staleAdded now kind item
  · rw [if_pos h, body_stale rfc3339 dry now kind item h]
  · rw [if_neg h]
    by_cases hn : item.Type_ = "Normal"
    · rw [if_pos hn, body_normal rfc3339 dry now kind item h hn]
    · rw [if_neg hn]
      by_cases hr : item.Reason = "FailedCreatePodSandBox"
      · rw [if_pos hr, body_sandbox rfc3339 dry now kind item h hn hr]
      · rw [if_neg hr, body_other_reason rfc3339 dry now kind item h hn hr]

theorem isDeleteDecision_detailLine (rfc3339 : Time → String) (item : corev1.Event) :
    isDeleteDecision (detailLine rfc3339 item) = false := by
  simp [isDeleteDecision, detailLine]

theorem isDeleteDecision_deleteLine (dry : Bool) (item : corev1.Event) :
    isDeleteDecision (deleteLine dry item) = true := by
  cases dry <;> simp [isDeleteDecision, deleteLine]

theorem isDeleteDecisionFor_detailLine (rfc3339 : Time → String) (item : corev1.Event)
    (ns name : String) : isDeleteDecisionFor ns name (detailLine rfc3339 item) = false := by
  simp [isDeleteDecisionFor, detailLine]

theorem isDeleteDecisionFor_deleteLine (dry : Bool) (item : corev1.Event) (ns name : String) :
    isDeleteDecisionFor ns name (deleteLine dry item) =
      decide (item.InvolvedObject.Namespace = ns ∧ item.InvolvedObject.Name = name) := by
  cases dry <;> simp [isDeleteDecisionFor, deleteLine]

/-- An iteration on a delivered Event takes the decision exactly when the event qualifies. -/
theorem emitsDelete_event (rfc3339 : Time → String) (dry : Bool) (now : Time)
    (kind : apiWatch.EventType) (item : corev1.Event) :
    (mainLoopBody rfc3339 dry now (some ⟨kind, .event item⟩)).emitsDelete =
      decide (qualifies now kind item) := by
  rw [body_event]
  unfold qualifies
  by_cases h : staleAdded now kind item
  · simp [h, Outcome.emitsDelete, Outcome.logs, isDeleteDecision]
  · by_cases hn : item.Type_ = "Normal"
    · simp [h, hn, Outcome.emitsDelete, Outcome.logs, isDeleteDecision]
    · by_cases hr : item.Reason = "FailedCreatePodSandBox"
      · simp [h, hn, hr, Outcome.emitsDelete, Outcome.logs, isDeleteDecision_detailLine,
          isDeleteDecision_deleteLine]
      · simp [h, hn, hr, Outcome.emitsDelete, Outcome.logs, isDeleteDecision_detailLine]

/-- An iteration on a delivered Event never panics. -/
theorem body_event_no_panic (rfc3339 : Time → String) (dry : Bool) (now : Time)
    (kind : apiWatch.EventType) (item : corev1.Event) :
    ∃ logs, mainLoopBody rfc3339 dry now (some ⟨kind, .event item⟩) = .skipped logs ∨
      mainLoopBody rfc3339 dry now (some ⟨kind, .event item⟩) = .handled logs := by
  rw [body_event]
  split_ifs
  · exact ⟨_, Or.inl rfl⟩
  · exact ⟨_, Or.inr rfl⟩
  · exact ⟨_, Or.inr rfl⟩
  · exact ⟨_, Or.inr rfl⟩

/-! ## Lemmas on the loop of `main.go` -/

/-- After an iteration on a delivered Event the loop goes on with the next receive. -/
theorem mainLoop_cons_event (rfc3339 : Time → String) (dry : Bool) (now : Time)
    (kind : apiWatch.EventType) (item : corev1.Event)
    (rest : List (Time × Option apiWatch.Event)) :
    mainLoop rfc3339 dry ((now, some ⟨kind, .event item⟩) :: rest) =
      ⟨(mainLoopBody rfc3339 dry now (some ⟨kind, .event item⟩)).logs ++
          (mainLoop rfc3339 dry rest).logs, (mainLoop rfc3339 dry rest).exit⟩ := by
  obtain ⟨logs, h | h⟩ := body_event_no_panic rfc3339 dry now kind item <;>
    simp [mainLoop, h, Outcome.logs]

/-- A panicking iteration ends the run at once. -/
theorem mainLoop_cons_panic (rfc3339 : Time → String) (dry : Bool) (now : Time)
    (recv : Option apiWatch.Event) (v : PanicValue)
    (rest : List (Time × Option apiWatch.Event))
    (h : mainLoopBody rfc3339 dry now recv = .panic v) :
    mainLoop rfc3339 dry ((now, recv) :: rest) = ⟨[], .panicked v⟩ := by
  simp [mainLoop, h]

/-- Receives after a run of delivered Events: the output of the Events comes first. -/
theorem mainLoop_delivered_append (rfc3339 : Time → String) (dry : Bool)
    (pre : List (Time × apiWatch.EventType × corev1.Event))
    (post : List (Time × Option apiWatch.Event)) :
    mainLoop rfc3339 dry (delivered pre ++ post) =
      ⟨(mainLoop rfc3339 dry (delivered pre)).logs ++ (mainLoop rfc3339 dry post).logs,
       (mainLoop rfc3339 dry post).exit⟩ := by
  induction pre with
  | nil => simp [delivered, mainLoop]
  | cons x pre ih =>
    obtain ⟨now, kind, item⟩ := x
    have hd : delivered ((now, kind, item) :: pre) =
        (now, some ⟨kind, .event item⟩) :: delivered pre := by simp [delivered]
    have ih2 := mainLoop_cons_event rfc3339 dry now kind item (delivered pre)
    rw [hd, List.cons_append, mainLoop_cons_event, ih, ih2]
    simp

/-- A run of delivered Events leaves the loop running. -/
theorem mainLoop_delivered_exit (rfc3339 : Time → String) (dry : Bool)
    (xs : List (Time × apiWatch.EventType × corev1.Event)) :
    (mainLoop rfc3339 dry (delivered xs)).exit = .running := by
  have h := mainLoop_delivered_append rfc3339 dry xs []
  simp only [List.append_nil] at h
  rw [h]
  simp [mainLoop]

/-! ## Lemmas on the loop of `event_watcher.go` -/

/-- An iteration of `event_watcher.go` on a delivered Event prints exactly one line. -/
theorem watcherBody_event (counter : Int) (kind : apiWatch.EventType) (item : corev1.Event) :
    ∃ c line, watcherLoopBody counter ⟨kind, .event item⟩ = .ok (c, [line]) := by
  simp only [watcherLoopBody]
  split <;> exact ⟨_, _, rfl⟩

/-- After an iteration on a delivered Event the `range` loop goes on with the next receive. -/
theorem watcherLoop_cons_event (counter c : Int) (logs : List LogCall)
    (kind : apiWatch.EventType) (item : corev1.Event) (rest : List (Option apiWatch.Event))
    (h : watcherLoopBody counter ⟨kind, .event item⟩ = .ok (c, logs)) :
    watcherLoop counter (some ⟨kind, .event item⟩ :: rest) =
      ⟨logs ++ (watcherLoop c rest).logs, (watcherLoop c rest).exit⟩ := by
  simp [watcherLoop, h]

/-- Receives after a run of delivered Events: the output of the Events comes first, one line
for each, and the rest is processed from the value `counter` has reached. -/
theorem watcherLoop_delivered_append (xs : List (apiWatch.EventType × corev1.Event))
    (post : List (Option apiWatch.Event)) (counter : Int) :
    ∃ c, watcherLoop counter (watcherDelivered xs ++ post) =
        ⟨(watcherLoop counter (watcherDelivered xs)).logs ++ (watcherLoop c post).logs,
         (watcherLoop c post).exit⟩ ∧
      (watcherLoop counter (watcherDelivered xs)).logs.length = xs.length ∧
      (watcherLoop counter (watcherDelivered xs)).exit = .running := by
  induction xs generalizing counter with
  | nil => exact ⟨counter, by simp [watcherDelivered, watcherLoop], rfl, rfl⟩
  | cons x xs ih =>
    obtain ⟨kind, item⟩ := x
    obtain ⟨c1, line, hb⟩ := watcherBody_event counter kind item
    obtain ⟨c, h1, h2, h3⟩ := ih c1
    have hd : watcherDelivered ((kind, item) :: xs) =
        some ⟨kind, .event item⟩ :: watcherDelivered xs := by simp [watcherDelivered]
    refine ⟨c, ?_, ?_, ?_⟩
    · rw [hd, List.cons_append, watcherLoop_cons_event counter c1 [line] kind item _ hb, h1,
        watcherLoop_cons_event counter c1 [line] kind item _ hb]
      simp
    · rw [hd, watcherLoop_cons_event counter c1 [line] kind item _ hb]
      simp [h2]
    · rw [hd, watcherLoop_cons_event counter c1 [line] kind item _ hb]
      exact h3

/-! ## Freshness filter, Normal events and the trigger of the decision (`main.go`) -/

/-- C1. An event of watch kind Added whose creation timestamp is strictly earlier than now
minus five minutes is skipped: the iteration logs the line "skipping old event" and ends at
`continue`, it takes no deletion decision whatever the event type, the reason and the dry-run
flag, and the loop goes on with the next receive. -/
theorem stale_added_is_skipped (rfc3339 : Time → String) (dry : Bool) (now : Time)
    (kind : apiWatch.EventType) (item : corev1.Event)
    (rest : List (Time × Option apiWatch.Event))
    (hkind : kind = apiWatch.Added)
    (hold : item.ObjectMeta.CreationTimestamp < now - 5 * Minute) :
    mainLoopBody rfc3339 dry now (some ⟨kind, .event item⟩) =
        .skipped [.Println [.str "skipping old event",
          .str (item.Type_ ++ ": " ++ item.Reason ++ " " ++ item.InvolvedObject.Namespace
            ++ "/" ++ item.InvolvedObject.Name ++ " "
            ++ rfc3339 item.ObjectMeta.CreationTimestamp)]] ∧
      (mainLoopBody rfc3339 dry now (some ⟨kind, .event item⟩)).emitsDelete = false ∧
      mainLoop rfc3339 dry ((now, some ⟨kind, .event item⟩) :: rest) =
        ⟨.Println [.str "skipping old event",
            .str (item.Type_ ++ ": " ++ item.Reason ++ " " ++ item.InvolvedObject.Namespace
              ++ "/" ++ item.InvolvedObject.Name ++ " "
              ++ rfc3339 item.ObjectMeta.CreationTimestamp)] ::
            (mainLoop rfc3339 dry rest).logs,
          (mainLoop rfc3339 dry rest).exit⟩ := by
  have hs : staleAdded now kind item := ⟨hkind, hold⟩
  have hb := body_stale rfc3339 dry now kind item hs
  refine ⟨?_, ?_, ?_⟩
  · rw [hb]; rfl
  · rw [emitsDelete_event]
    simp [qualifies, hs]
  · rw [mainLoop_cons_event, hb]
    rfl

/-- C1, at a concrete input: an Added sandbox failure created more than five minutes before
now. -/
theorem stale_added_is_skipped_witness :
    sandboxFailure.ObjectMeta.CreationTimestamp < 300000000001 - 5 * Minute ∧
      (mainLoopBody epochUTC false 300000000001
        (some ⟨apiWatch.Added, .event sandboxFailure⟩)).emitsDelete = false :=
  ⟨by decide,
   (stale_added_is_skipped epochUTC false 300000000001 apiWatch.Added sandboxFailure [] rfl
      (by decide)).2.1⟩

/-- C8. A non-skipped event of type "Normal" takes no deletion decision, whatever its reason,
and is logged as exactly one line: the summary of type, reason, namespace/name and creation
time. -/
theorem normal_event_is_informational (rfc3339 : Time → String) (dry : Bool) (now : Time)
    (kind : apiWatch.EventType) (item : corev1.Event)
    (hfresh : ¬ (kind = apiWatch.Added ∧ item.ObjectMeta.CreationTimestamp < now - 5 * Minute))
    (hnormal : item.Type_ = "Normal") :
    mainLoopBody rfc3339 dry now (some ⟨kind, .event item⟩) =
        .handled [.Println [.str ("Normal: " ++ item.Reason ++ " "
          ++ item.InvolvedObject.Namespace ++ "/" ++ item.InvolvedObject.Name ++ " "
          ++ rfc3339 item.ObjectMeta.CreationTimestamp)]] ∧
      (mainLoopBody rfc3339 dry now (some ⟨kind, .event item⟩)).emitsDelete = false := by
  have hb := body_normal rfc3339 dry now kind item hfresh hnormal
  refine ⟨?_, ?_⟩
  · rw [hb]
    simp [mkMsg, mkPodEvent, hnormal]
  · rw [emitsDelete_event]
    simp [qualifies, hnormal]

/-- C8, at a concrete input: a Normal event whose reason is "FailedCreatePodSandBox". -/
theorem normal_event_is_informational_witness :
    (mainLoopBody epochUTC true 0 (some ⟨apiWatch.Modified,
        .event { sandboxFailure with Type_ := "Normal" }⟩)).emitsDelete = false :=
  (normal_event_is_informational epochUTC true 0 apiWatch.Modified
      { sandboxFailure with Type_ := "Normal" } (by decide) rfl).2

/-- C10. For a delivered Event the deletion decision is taken if and only if the event is
not stale-Added, its type differs from "Normal" and its reason is "FailedCreatePodSandBox";
the iteration is skipped if and only if the event is stale-Added, so an event of another watch
kind, of any age, and an Added event exactly five minutes old are not skipped; the reasons
"Failed", "BackOff" and "NetworkNotReady" never take the decision. -/
theorem delete_decision_iff (rfc3339 : Time → String) (dry : Bool) (now : Time)
    (kind : apiWatch.EventType) (item : corev1.Event) :
    ((mainLoopBody rfc3339 dry now (some ⟨kind, .event item⟩)).emitsDelete = true ↔
        (¬ (kind = apiWatch.Added ∧ item.ObjectMeta.CreationTimestamp < now - 5 * Minute) ∧
          item.Type_ ≠ "Normal" ∧ item.Reason = "FailedCreatePodSandBox")) ∧
      ((∃ logs, mainLoopBody rfc3339 dry now (some ⟨kind, .event item⟩) = .skipped logs) ↔
        (kind = apiWatch.Added ∧ item.ObjectMeta.CreationTimestamp < now - 5 * Minute)) ∧
      (kind ≠ apiWatch.Added →
        ∀ logs, mainLoopBody rfc3339 dry now (some ⟨kind, .event item⟩) ≠ .skipped logs) ∧
      (item.ObjectMeta.CreationTimestamp = now - 5 * Minute →
        ∀ logs, mainLoopBody rfc3339 dry now (some ⟨kind, .event item⟩) ≠ .skipped logs) ∧
      (item.Reason = "Failed" ∨ item.Reason = "BackOff" ∨ item.Reason = "NetworkNotReady" →
        (mainLoopBody rfc3339 dry now (some ⟨kind, .event item⟩)).emitsDelete = false) := by
  have hskip : (∃ logs, mainLoopBody rfc3339 dry now (some ⟨kind, .event item⟩) =
      .skipped logs) ↔ staleAdded now kind item := by
    rw [body_event]
    constructor
    · rintro ⟨logs, h⟩
      by_contra hs
      rw [if_neg hs] at h
      split_ifs at h
    · intro hs
      rw [if_pos hs]
      exact ⟨_, rfl⟩
  refine ⟨?_, hskip, ?_, ?_, ?_⟩
  · rw [emitsDelete_event, decide_eq_true_iff]
    exact Iff.rfl
  · intro hk logs h
    exact hk (hskip.mp ⟨logs, h⟩).1
  · intro ht logs h
    have hlt := (hskip.mp ⟨logs, h⟩).2
    rw [ht] at hlt
    exact lt_irrefl _ hlt
  · intro hr
    rw [emitsDelete_event]
    have : item.Reason ≠ "FailedCreatePodSandBox" := by
      rcases hr with h | h | h <;> rw [h] <;> decide
    simp [qualifies, this]

/-- C10, at a concrete input: a Modified Warning event with reason "FailedCreatePodSandBox"
takes the decision. -/
theorem delete_decision_iff_witness :
    (mainLoopBody epochUTC false 0
      (some ⟨apiWatch.Modified, .event sandboxFailure⟩)).emitsDelete = true :=
  (delete_decision_iff epochUTC false 0 apiWatch.Modified sandboxFailure).1.mpr
    ⟨by decide, by decide, rfl⟩

/-! ## The subscription request (`eventWatcher.Watch`) -/

/-- C2. At the options a retry watcher passes on reconnect (resource version "42", bookmarks
allowed), the request `Watch` issues carries only the timeout: its resource version is empty,
and it is the very request issued for the initial version "1". -/
theorem watch_drops_resource_version :
    (eventWatcher.Watch ⟨timeout, "default"⟩
        { ResourceVersion := "42", AllowWatchBookmarks := true }).1 =
        ⟨"default", { TimeoutSeconds := some 60 }⟩ ∧
      (eventWatcher.Watch ⟨timeout, "default"⟩
        { ResourceVersion := "42", AllowWatchBookmarks := true }).1.opts.ResourceVersion = "" ∧
      (eventWatcher.Watch ⟨timeout, "default"⟩
        { ResourceVersion := "42", AllowWatchBookmarks := true }).1 =
        (eventWatcher.Watch ⟨timeout, "default"⟩
          { ResourceVersion := "1", AllowWatchBookmarks := true }).1 := by
  refine ⟨rfl, rfl, rfl⟩

/-- For every watcher and every options value the request carries the namespace of the
watcher and the timeout only. -/
theorem watch_request_eq (w : eventWatcher) (options : metav1.ListOptions) :
    (w.Watch options).1 = ⟨w.namespace_, { TimeoutSeconds := some w.timeoutSecs }⟩ := rfl

/-! ## One decision per qualifying event -/

theorem count_body (rfc3339 : Time → String) (dry : Bool) (now : Time)
    (kind : apiWatch.EventType) (item : corev1.Event) (ns name : String) :
    (mainLoopBody rfc3339 dry now (some ⟨kind, .event item⟩)).logs.countP
        (isDeleteDecisionFor ns name) =
      if qualifies now kind item ∧ item.InvolvedObject.Namespace = ns ∧
          item.InvolvedObject.Name = name then 1 else 0 := by
  rw [body_event]
  unfold qualifies
  by_cases h : staleAdded now kind item
  · simp [h, Outcome.logs, isDeleteDecisionFor]
  · by_cases hn : item.Type_ = "Normal"
    · simp [h, hn, Outcome.logs, isDeleteDecisionFor]
    · by_cases hr : item.Reason = "FailedCreatePodSandBox"
      · simp only [h, hn, hr, Outcome.logs, if_false, if_true, List.countP_cons,
          List.countP_nil, isDeleteDecisionFor_detailLine, isDeleteDecisionFor_deleteLine]
        by_cases hp : item.InvolvedObject.Namespace = ns ∧ item.InvolvedObject.Name = name
        · simp [hp, hn]
        · simp [hp, hn]
      · simp [h, hn, hr, Outcome.logs, isDeleteDecisionFor_detailLine]

/-- C3 fails as stated: two sandbox failures about the same pod, received five seconds apart,
produce two deletion decisions for it. -/
theorem two_failures_two_decisions :
    (sandboxFailure.InvolvedObject = { sandboxFailure with Count := 2 }.InvolvedObject) ∧
      (mainLoop epochUTC false (delivered
        [(0, apiWatch.Added, sandboxFailure),
         (5 * Second, apiWatch.Modified, { sandboxFailure with Count := 2 })])).logs.countP
        (isDeleteDecisionFor "default" "pod-a") = 2 := by
  refine ⟨rfl, ?_⟩
  decide

/-- C3, amended. The loop takes one deletion decision per qualifying event: over any run of
delivered Events, the number of deletion lines naming a pod equals the number of events about
that pod that are not stale-Added, not of type "Normal" and of reason
"FailedCreatePodSandBox". -/
theorem one_decision_per_qualifying_event (rfc3339 : Time → String) (dry : Bool)
    (xs : List (Time × apiWatch.EventType × corev1.Event)) (ns name : String) :
    (mainLoop rfc3339 dry (delivered xs)).logs.countP (isDeleteDecisionFor ns name) =
      xs.countP (fun x => decide (qualifies x.1 x.2.1 x.2.2 ∧
        x.2.2.InvolvedObject.Namespace = ns ∧ x.2.2.InvolvedObject.Name = name)) := by
  induction xs with
  | nil => simp [delivered, mainLoop]
  | cons x xs ih =>
    obtain ⟨now, kind, item⟩ := x
    have hd : delivered ((now, kind, item) :: xs) =
        (now, some ⟨kind, .event item⟩) :: delivered xs := by simp [delivered]
    rw [hd, mainLoop_cons_event, List.countP_append, count_body, ih, List.countP_cons]
    by_cases hq : qualifies now kind item ∧ item.InvolvedObject.Namespace = ns ∧
        item.InvolvedObject.Name = name
    · simp [hq]; omega
    · simp [hq]

/-! ## Owner references -/

/-- C4 fails as stated: a sandbox failure that carries no owner reference takes the deletion
decision for its pod. The payload has no other owner data: the reference to the involved
object (`corev1.ObjectReference`) has no owner field. -/
theorem no_owner_still_deleted :
    sandboxFailure.ObjectMeta.OwnerReferences = [] ∧
      mainLoopBody epochUTC false 0 (some ⟨apiWatch.Modified, .event sandboxFailure⟩) =
        .handled
          [.Printf "%s\n%+v"
            [.str "Warning: FailedCreatePodSandBox default/pod-a 1970-01-01T00:00:00Z",
             .podEvent (mkPodEvent sandboxFailure)],
           .Printf "Would have deleted pod %s/%s" [.str "default", .str "pod-a"]] := by
  refine ⟨rfl, ?_⟩
  decide

/-- C4, amended. Owner references play no part in the deletion decision: replacing the owner
references of an Event by any others leaves the result of the iteration unchanged, and a
qualifying event with no owner reference at all takes the decision. -/
theorem owner_references_not_consulted (rfc3339 : Time → String) (dry : Bool) (now : Time)
    (kind : apiWatch.EventType) (item : corev1.Event) (refs : List metav1.OwnerReference) :
    mainLoopBody rfc3339 dry now (some ⟨kind, .event (withOwnerReferences item refs)⟩) =
        mainLoopBody rfc3339 dry now (some ⟨kind, .event item⟩) ∧
      ((¬ (kind = apiWatch.Added ∧ item.ObjectMeta.CreationTimestamp < now - 5 * Minute) ∧
          item.Type_ ≠ "Normal" ∧ item.Reason = "FailedCreatePodSandBox") →
        (mainLoopBody rfc3339 dry now
          (some ⟨kind, .event (withOwnerReferences item [])⟩)).emitsDelete = true) := by
  have hsame : ∀ rs, mainLoopBody rfc3339 dry now
      (some ⟨kind, .event (withOwnerReferences item rs)⟩) =
      mainLoopBody rfc3339 dry now (some ⟨kind, .event item⟩) := fun _ => rfl
  refine ⟨hsame refs, fun hq => ?_⟩
  rw [hsame, emitsDelete_event, decide_eq_true_iff]
  exact hq

/-- C4 amended, at a concrete input: the sandbox failure stripped of owner references. -/
theorem owner_references_not_consulted_witness :
    (mainLoopBody epochUTC true 0
      (some ⟨apiWatch.Modified, .event (withOwnerReferences sandboxFailure [])⟩)).emitsDelete
      = true :=
  (owner_references_not_consulted epochUTC true 0 apiWatch.Modified sandboxFailure []).2
    ⟨by decide, by decide, rfl⟩

/-! ## Panics of the loops -/

/-- C5 fails as stated: an Error payload whose object is a `*v1.Status` aborts the loop of
`main.go` with a panic, and the Event delivered after it is never processed. -/
theorem status_payload_panics :
    mainLoop epochUTC false
        [(0, some ⟨apiWatch.Error, .other "*v1.Status"⟩),
         (0, some ⟨apiWatch.Modified, .event sandboxFailure⟩)] =
      ⟨[], .panicked (.error "invalid type \x27*v1.Status\x27")⟩ := by
  decide

/-- C5, amended. A payload whose object is not a core Event aborts the loop: `main.go`
panics with the error "invalid type" naming the dynamic type, after the output of the Events
delivered before it, and `event_watcher.go` panics in its type assertion, after the output of
the Events delivered before it. A payload whose object is a core Event never panics, in either
program, and the loop goes on to the next receive: a run of delivered Events leaves either
loop running, with every Event processed. -/
theorem non_event_payload_panics (rfc3339 : Time → String) (dry : Bool) (now : Time)
    (kind : apiWatch.EventType) (dynType : String) (item : corev1.Event) (counter : Int)
    (pre : List (Time × apiWatch.EventType × corev1.Event))
    (post : List (Time × Option apiWatch.Event))
    (wpre : List (apiWatch.EventType × corev1.Event)) :
    mainLoopBody rfc3339 dry now (some ⟨kind, .other dynType⟩) =
        .panic (.error ("invalid type \x27" ++ dynType ++ "\x27")) ∧
      mainLoop rfc3339 dry (delivered pre ++ (now, some ⟨kind, .other dynType⟩) :: post) =
        ⟨(mainLoop rfc3339 dry (delivered pre)).logs,
         .panicked (.error ("invalid type \x27" ++ dynType ++ "\x27"))⟩ ∧
      watcherLoopBody counter ⟨kind, .other dynType⟩ = .error (.typeAssertion dynType) ∧
      watcherLoop counter (some ⟨kind, .other dynType⟩ :: post.map Prod.snd) =
        ⟨[], .panicked (.typeAssertion dynType)⟩ ∧
      (∃ logs, mainLoopBody rfc3339 dry now (some ⟨kind, .event item⟩) = .skipped logs ∨
        mainLoopBody rfc3339 dry now (some ⟨kind, .event item⟩) = .handled logs) ∧
      (∃ r, watcherLoopBody counter ⟨kind, .event item⟩ = .ok r) ∧
      mainLoop rfc3339 dry ((now, some ⟨kind, .event item⟩) :: post) =
        ⟨(mainLoopBody rfc3339 dry now (some ⟨kind, .event item⟩)).logs ++
            (mainLoop rfc3339 dry post).logs, (mainLoop rfc3339 dry post).exit⟩ ∧
      (mainLoop rfc3339 dry (delivered pre)).exit = .running ∧
      (∃ c line, watcherLoopBody counter ⟨kind, .event item⟩ = .ok (c, [line]) ∧
        watcherLoop counter (some ⟨kind, .event item⟩ :: post.map Prod.snd) =
          ⟨line :: (watcherLoop c (post.map Prod.snd)).logs,
           (watcherLoop c (post.map Prod.snd)).exit⟩) ∧
      watcherLoop counter
          (watcherDelivered wpre ++ some ⟨kind, .other dynType⟩ :: post.map Prod.snd) =
        ⟨(watcherLoop counter (watcherDelivered wpre)).logs,
         .panicked (.typeAssertion dynType)⟩ ∧
      (watcherLoop counter (watcherDelivered wpre)).logs.length = wpre.length ∧
      (watcherLoop counter (watcherDelivered wpre)).exit = .running := by
  obtain ⟨c1, line, hb⟩ := watcherBody_event counter kind item
  obtain ⟨c, h1, h2, h3⟩ := watcherLoop_delivered_append wpre
    (some ⟨kind, .other dynType⟩ :: post.map Prod.snd) counter
  have hpanic : watcherLoop c (some ⟨kind, .other dynType⟩ :: post.map Prod.snd) =
      ⟨[], .panicked (.typeAssertion dynType)⟩ := rfl
  refine ⟨rfl, ?_, rfl, rfl, body_event_no_panic rfc3339 dry now kind item, ⟨_, hb⟩,
    mainLoop_cons_event rfc3339 dry now kind item post,
    mainLoop_delivered_exit rfc3339 dry pre, ⟨c1, line, hb, ?_⟩, ?_, h2, h3⟩
  · rw [mainLoop_delivered_append, mainLoop_cons_panic rfc3339 dry now
      (some ⟨kind, .other dynType⟩) (.error ("invalid type \x27" ++ dynType ++ "\x27")) post rfl]
    simp
  · rw [watcherLoop_cons_event counter c1 [line] kind item _ hb]
    rfl
  · rw [h1, hpanic]
    simp

/-! ## Closure of the result channel -/

/-- The test of lines 98-100 and the guard of lines 104-106 are the only ways an iteration of
`main.go` panics: on a receive from the closed channel, or on a payload that is not a core
Event. -/
theorem body_panic_iff (rfc3339 : Time → String) (dry : Bool) (now : Time)
    (recv : Option apiWatch.Event) :
    (∃ v, mainLoopBody rfc3339 dry now recv = .panic v) ↔
      (recv = none ∨ ∃ kind dynType, recv = some ⟨kind, .other dynType⟩) := by
  constructor
  · rintro ⟨v, hv⟩
    match recv, hv with
    | none, _ => exact Or.inl rfl
    | some ⟨kind, .other dynType⟩, _ => exact Or.inr ⟨kind, dynType, rfl⟩
    | some ⟨kind, .event item⟩, hv =>
      obtain ⟨logs, h | h⟩ := body_event_no_panic rfc3339 dry now kind item <;>
        rw [h] at hv <;> cases hv
  · rintro (h | ⟨kind, dynType, h⟩)
    · exact ⟨_, by rw [h]; rfl⟩
    · exact ⟨_, by rw [h]; rfl⟩

theorem invalid_type_ne_closed_channel (dynType : String) :
    "invalid type \x27" ++ dynType ++ "\x27" ≠ "closed channel" := by
  intro h
  have hd := congrArg String.data h
  simp [String.data_append] at hd

/-- A run that meets no closure before a payload that is not an Event: either every receive
delivered an Event, or the run splits at the first other payload. -/
theorem run_split (xs : List (Time × Option apiWatch.Event))
    (h : closesOnlyAfterStatus xs = true) :
    (∃ pre, xs = delivered pre) ∨
      (∃ pre now kind dynType post,
        xs = delivered pre ++ (now, some ⟨kind, .other dynType⟩) :: post) := by
  induction xs with
  | nil => exact Or.inl ⟨[], rfl⟩
  | cons x xs ih =>
    match x, h with
    | (now, some ⟨kind, .other dynType⟩), _ =>
      exact Or.inr ⟨[], now, kind, dynType, xs, rfl⟩
    | (now, some ⟨kind, .event item⟩), h =>
      have h2 : closesOnlyAfterStatus xs = true := by
        simpa [closesOnlyAfterStatus] using h
      rcases ih h2 with ⟨pre, hp⟩ | ⟨pre, t, k, d, post, hp⟩
      · exact Or.inl ⟨(now, kind, item) :: pre, by simp [delivered, hp]⟩
      · exact Or.inr ⟨(now, kind, item) :: pre, t, k, d, post, by simp [delivered, hp]⟩

/-- C6 fails as stated: when the retry watcher gives up it sends a Status in an Error event
and then closes its channel; the loop of `main.go` panics on the Status, so the process is
terminated, with a valid startup configuration, in a run in which the channel is closed. -/
theorem retry_watcher_status_is_fatal :
    closesOnlyAfterStatus retryWatcherGivesUp = true ∧
      mainLoop epochUTC false retryWatcherGivesUp =
        ⟨[.Println [.str "Normal: Scheduled default/pod-a 1970-01-01T00:00:00Z"]],
         .panicked (.error "invalid type \x27*v1.Status\x27")⟩ := by
  decide

/-- C6, amended. The closure of the result channel is never what terminates the process: in
every run in which the channel is closed only after the retry watcher has sent a payload that
is not a core Event, the loop of `main.go` never panics with "closed channel" and never
returns. As long as core Events are delivered the loop keeps running and processes each of
them; the first payload that is not a core Event terminates the process with the panic
"invalid type", after the output of the Events before it. -/
theorem closure_never_reached (rfc3339 : Time → String) (dry : Bool)
    (xs : List (Time × Option apiWatch.Event)) (h : closesOnlyAfterStatus xs = true) :
    (mainLoop rfc3339 dry xs).exit ≠ .panicked (.error "closed channel") ∧
      (mainLoop rfc3339 dry xs).exit ≠ .returned ∧
      ((∃ pre, xs = delivered pre ∧ (mainLoop rfc3339 dry xs).exit = .running) ∨
        (∃ pre now kind dynType post,
          xs = delivered pre ++ (now, some ⟨kind, .other dynType⟩) :: post ∧
          mainLoop rfc3339 dry xs =
            ⟨(mainLoop rfc3339 dry (delivered pre)).logs,
             .panicked (.error ("invalid type \x27" ++ dynType ++ "\x27"))⟩)) := by
  rcases run_split xs h with ⟨pre, hp⟩ | ⟨pre, now, kind, dynType, post, hp⟩
  · have he : (mainLoop rfc3339 dry xs).exit = .running := by
      rw [hp]; exact mainLoop_delivered_exit rfc3339 dry pre
    refine ⟨?_, ?_, Or.inl ⟨pre, hp, he⟩⟩
    · rw [he]; intro hc; cases hc
    · rw [he]; intro hc; cases hc
  · have hr : mainLoop rfc3339 dry xs = ⟨(mainLoop rfc3339 dry (delivered pre)).logs,
        .panicked (.error ("invalid type \x27" ++ dynType ++ "\x27"))⟩ := by
      rw [hp, mainLoop_delivered_append, mainLoop_cons_panic rfc3339 dry now
        (some ⟨kind, .other dynType⟩) (.error ("invalid type \x27" ++ dynType ++ "\x27"))
        post rfl]
      simp
    refine ⟨?_, ?_, Or.inr ⟨pre, now, kind, dynType, post, hp, hr⟩⟩
    · rw [hr]
      intro hc
      injection hc with hc
      injection hc with hc
      exact invalid_type_ne_closed_channel dynType hc
    · rw [hr]; intro hc; cases hc

/-- C6 amended, at a concrete input: the run in which the retry watcher gives up. -/
theorem closure_never_reached_witness :
    closesOnlyAfterStatus retryWatcherGivesUp = true ∧
      (mainLoop epochUTC true retryWatcherGivesUp).exit ≠ .panicked (.error "closed channel") :=
  ⟨by decide, (closure_never_reached epochUTC true retryWatcherGivesUp (by decide)).1⟩

/-! ## Dry-run parity -/

theorem tagDryRun_detailLine (rfc3339 : Time → String) (item : corev1.Event) :
    tagDryRun (detailLine rfc3339 item) = detailLine rfc3339 item := by
  simp [tagDryRun, detailLine]

theorem tagDryRun_deleteLine (item : corev1.Event) :
    tagDryRun (deleteLine false item) = deleteLine true item := by
  simp only [tagDryRun, deleteLine, if_true]
  rfl

/-- The dry-run iteration is the live iteration with its logged calls tagged. -/
theorem body_dry_cases (rfc3339 : Time → String) (now : Time) (recv : Option apiWatch.Event) :
    (∃ v, mainLoopBody rfc3339 false now recv = .panic v ∧
        mainLoopBody rfc3339 true now recv = .panic v) ∨
      (∃ logs, mainLoopBody rfc3339 false now recv = .skipped logs ∧
        mainLoopBody rfc3339 true now recv = .skipped (logs.map tagDryRun)) ∨
      (∃ logs, mainLoopBody rfc3339 false now recv = .handled logs ∧
        mainLoopBody rfc3339 true now recv = .handled (logs.map tagDryRun)) := by
  match recv with
  | none => exact Or.inl ⟨_, rfl, rfl⟩
  | some ⟨kind, .other dynType⟩ => exact Or.inl ⟨_, rfl, rfl⟩
  | some ⟨kind, .event item⟩ =>
    rw [body_event, body_event]
    split_ifs
    · exact Or.inr (Or.inl ⟨_, rfl, rfl⟩)
    · exact Or.inr (Or.inr ⟨_, rfl, rfl⟩)
    · refine Or.inr (Or.inr ⟨_, rfl, ?_⟩)
      simp [tagDryRun_detailLine, tagDryRun_deleteLine]
    · refine Or.inr (Or.inr ⟨_, rfl, ?_⟩)
      simp [tagDryRun_detailLine]

/-- C7. Processing a receive with the dry-run flag set and unset takes the same decisions:
either the two iterations have the same result and no deletion decision is taken, or both run
to the end with the same lines before a final deletion line, which differs only by the tag
"[DRY-RUN]: " in front of its format. Over any sequence of receives the two runs end in the
same state and log the same calls up to that tag. -/
theorem dry_run_parity (rfc3339 : Time → String) (now : Time) (recv : Option apiWatch.Event)
    (xs : List (Time × Option apiWatch.Event)) :
    ((mainLoopBody rfc3339 true now recv = mainLoopBody rfc3339 false now recv ∧
          (mainLoopBody rfc3339 false now recv).emitsDelete = false) ∨
        (∃ pre ns name,
          mainLoopBody rfc3339 false now recv =
            .handled (pre ++ [.Printf "Would have deleted pod %s/%s" [.str ns, .str name]]) ∧
          mainLoopBody rfc3339 true now recv =
            .handled (pre ++
              [.Printf ("[DRY-RUN]: " ++ "Would have deleted pod %s/%s")
                [.str ns, .str name]]) ∧
          pre.any isDeleteDecision = false)) ∧
      (mainLoop rfc3339 true xs).exit = (mainLoop rfc3339 false xs).exit ∧
      (mainLoop rfc3339 true xs).logs = (mainLoop rfc3339 false xs).logs.map tagDryRun := by
  constructor
  · match recv with
    | none => exact Or.inl ⟨rfl, rfl⟩
    | some ⟨kind, .other dynType⟩ => exact Or.inl ⟨rfl, rfl⟩
    | some ⟨kind, .event item⟩ =>
      by_cases hq : qualifies now kind item
      · right
        obtain ⟨hs, hn, hr⟩ := hq
        refine ⟨[detailLine rfc3339 item], item.InvolvedObject.Namespace,
          item.InvolvedObject.Name, ?_, ?_, ?_⟩
        · rw [body_sandbox rfc3339 false now kind item hs hn hr]; rfl
        · rw [body_sandbox rfc3339 true now kind item hs hn hr]; rfl
        · simp [isDeleteDecision_detailLine]
      · left
        have he : (mainLoopBody rfc3339 false now (some ⟨kind, .event item⟩)).emitsDelete
            = false := by
          rw [emitsDelete_event]; simp [hq]
        refine ⟨?_, he⟩
        rw [body_event, body_event]
        unfold qualifies at hq
        split_ifs with h1 h2 h3
        · rfl
        · rfl
        · exact absurd ⟨h1, h2, h3⟩ hq
        · rfl
  · induction xs with
    | nil => exact ⟨rfl, rfl⟩
    | cons x xs ih =>
      obtain ⟨t, r⟩ := x
      rcases body_dry_cases rfc3339 t r with ⟨v, h1, h2⟩ | ⟨logs, h1, h2⟩ | ⟨logs, h1, h2⟩
      · simp [mainLoop, h1, h2]
      · simp [mainLoop, h1, h2, ih.1, ih.2]
      · simp [mainLoop, h1, h2, ih.1, ih.2]

/-! ## The reason dispatch and the categories of the specification -/

/-- C9 fails as stated: in `event_watcher.go` the reason "NetworkNotReady" selects the default
case, the case of the unknown reasons, where the table of the specification says Transient. -/
theorem watcher_network_not_ready_is_default :
    watcherSwitch "NetworkNotReady" = .default ∧
      (watcherSwitch "NetworkNotReady").category = .Unknown ∧
      specCategory "NetworkNotReady" = .Transient ∧
      watcherLoopBody 0 ⟨apiWatch.Modified,
          .event { sandboxFailure with Reason := "NetworkNotReady" }⟩ =
        .ok (0, [.Printf "\nDO NOT KNOW (%s) PodEvent:\n%+v\n"
          [.str "NetworkNotReady",
           .podEvent (mkPodEvent { sandboxFailure with Reason := "NetworkNotReady" })]]) := by
  refine ⟨by decide, by decide, by decide, ?_⟩
  rfl

/-- C9, amended. The switch of `main.go` has one case for each of "Failed", "BackOff",
"NetworkNotReady" and "FailedCreatePodSandBox" and sends every other reason to the default
case, so the category of the selected case is the one the table of the specification gives to
the reason. The switch of `event_watcher.go` agrees with the table on every reason but
"NetworkNotReady", which it sends to the default case (Unknown). -/
theorem reason_dispatch_categories (reason : String) :
    (mainSwitch reason).category = specCategory reason ∧
      (mainSwitch reason = .default ↔
        (reason ≠ "Failed" ∧ reason ≠ "BackOff" ∧ reason ≠ "NetworkNotReady" ∧
          reason ≠ "FailedCreatePodSandBox")) ∧
      (watcherSwitch reason).category =
        (if reason = "NetworkNotReady" then Category.Unknown else specCategory reason) ∧
      (watcherSwitch reason = .default ↔
        (reason ≠ "Failed" ∧ reason ≠ "BackOff" ∧ reason ≠ "FailedCreatePodSandBox")) := by
  unfold mainSwitch watcherSwitch specCategory
  by_cases h1 : reason = "Failed"
  · subst h1; decide
  by_cases h2 : reason = "BackOff"
  · subst h2; decide
  by_cases h3 : reason = "NetworkNotReady"
  · subst h3; decide
  by_cases h4 : reason = "FailedCreatePodSandBox"
  · subst h4; decide
  simp [h1, h2, h3, h4, ReasonCase.category, WatcherCase.category]

end K8sEventWatcher
